import Mathlib

/-!
Shallow embedding of the deal-evaluation engine of `app.py`
(bonus-accelerator): eligibility checking, tier selection, base-bonus
lookup, FX conversion, payout scheduling and result assembly.

Numbers are modelled as exact rationals (`ℚ`); Python's `round`
(banker's rounding) becomes `roundHalfEven`.  Calendar dates are
modelled as year/month/day triples in the proleptic Gregorian calendar,
with `datetime.timedelta` day arithmetic modelled as iterated
successor/predecessor of calendar days.  Python dicts become
association lists with first-match lookup.  The one fallible operation
(`sorted(tiers, ...)[0]` on an empty list raises `IndexError`) is
modelled with `Option`.
-/

namespace BonusAccelerator

/-- Python's `round` to an integer: round half to even (banker's rounding). -/
def roundHalfEven (q : ℚ) : ℤ :=
  let f : ℤ := ⌊q⌋
  let r : ℚ := q - f
  if r < 1/2 then f
  else if 1/2 < r then f + 1
  else if f % 2 = 0 then f else f + 1

/-- Python's `round(x, 2)`: round to two decimal places, half to even. -/
def round2 (q : ℚ) : ℚ :=
  (roundHalfEven (q * 100) : ℚ) / 100

/-- A calendar date, as `datetime.date`: year, month (1..12), day (1..·). -/
structure Date where
  y : ℕ
  m : ℕ
  d : ℕ
  deriving DecidableEq, Repr

/-- Gregorian leap-year rule (semantics of `datetime`). -/
def isLeap (y : ℕ) : Bool :=
  (y % 4 = 0 && y % 100 ≠ 0) || y % 400 = 0

/-- Number of days in month `m` of year `y` (semantics of `datetime`). -/
def daysInMonth (y m : ℕ) : ℕ :=
  if m = 2 then (if isLeap y then 29 else 28)
  else if m = 4 ∨ m = 6 ∨ m = 9 ∨ m = 11 then 30
  else 31

/-- A valid `datetime.date`: month in 1..12 and day within the month. -/
def ValidDate (dt : Date) : Prop :=
  1 ≤ dt.m ∧ dt.m ≤ 12 ∧ 1 ≤ dt.d ∧ dt.d ≤ daysInMonth dt.y dt.m

instance (dt : Date) : Decidable (ValidDate dt) := by
  unfold ValidDate; infer_instance

/-- The calendar day after `dt` (semantics of `date + timedelta(days=1)`). -/
def nextDay (dt : Date) : Date :=
  if dt.d < daysInMonth dt.y dt.m then ⟨dt.y, dt.m, dt.d + 1⟩
  else if dt.m < 12 then ⟨dt.y, dt.m + 1, 1⟩
  else ⟨dt.y + 1, 1, 1⟩

/-- The calendar day before `dt` (semantics of `date - timedelta(days=1)`). -/
def prevDay (dt : Date) : Date :=
  if 1 < dt.d then ⟨dt.y, dt.m, dt.d - 1⟩
  else if 1 < dt.m then ⟨dt.y, dt.m - 1, daysInMonth dt.y (dt.m - 1)⟩
  else ⟨dt.y - 1, 12, 31⟩

/-- `dt + timedelta(days=n)` for `n ≥ 0`. -/
def addDays : Date → ℕ → Date
  | dt, 0 => dt
  | dt, n + 1 => addDays (nextDay dt) n

/-- `dt - timedelta(days=n)` for `n ≥ 0`. -/
def subDays : Date → ℕ → Date
  | dt, 0 => dt
  | dt, n + 1 => subDays (prevDay dt) n

/-- `dt + timedelta(days=n)` for a signed day count. -/
def addDaysZ (dt : Date) (n : ℤ) : Date :=
  if 0 ≤ n then addDays dt n.toNat else subDays dt (-n).toNat

/-- Python's `date` ordering: lexicographic on (year, month, day). -/
def dateLe (a b : Date) : Bool :=
  a.y < b.y || (a.y = b.y && (a.m < b.m || (a.m = b.m && a.d ≤ b.d)))

/-- `quarter_key(d)`: `f"{d.year}Q{(d.month - 1) // 3 + 1}"`. -/
def quarter_key (d : Date) : String :=
  toString d.y ++ "Q" ++ toString ((d.m - 1) / 3 + 1)

/-- `end_of_month(d)`: `nm = d.replace(day=28) + timedelta(days=4)`;
`return nm - timedelta(days=nm.day)`. -/
def end_of_month (dt : Date) : Date :=
  let nm := addDays ⟨dt.y, dt.m, 28⟩ 4
  subDays nm nm.d

/-- One tier rule: name, order-value range, multiplier and payout plan
(`(months_from_sign, fraction)` pairs). -/
structure TierRule where
  name : String
  min_value : ℚ
  max_value : Option ℚ
  multiplier : ℚ
  payouts : List (ℤ × ℚ)
  deriving DecidableEq, Repr

/-- Program configuration snapshot (dicts as association lists). -/
structure ProgramConfig where
  program_months : ℤ
  min_order_usd : ℚ
  min_term_months : ℤ
  confirm_sla_days : ℤ
  base_bonus_by_region_role : List (String × List (String × ℚ))
  push_products : List String
  fx_by_quarter : List (String × List (String × ℚ))
  tiers : List TierRule
  deriving DecidableEq, Repr

/-- One deal to evaluate. -/
structure DealInput where
  product : String
  region : String
  role : String
  currency : String
  annual_order_value : ℚ
  contract_term_months : ℤ
  signing_date : Date
  launch_or_announce_date : Date
  is_new_customer : Bool
  product_type_push : Bool
  sfdc_po_id : String
  deriving DecidableEq, Repr

/-- One scheduled disbursement. -/
structure Payout where
  date : Date
  amount_usd : ℚ
  amount_local : ℚ
  deriving DecidableEq, Repr

/-- The validation checklist built by `compute_deal`. -/
structure Checklist where
  sfdc_po_submitted : Bool
  sales_ops_validated : Bool
  product_mgmt_validated : Bool
  bonus_confirmed_within_30_days : Bool
  deriving DecidableEq, Repr

/-- The audit record assembled by `compute_deal`; `computed_at` is the
UTC timestamp string. -/
structure Audit where
  program : String
  computed_at : String
  input : DealInput
  config_version : String
  tier_rule : TierRule
  deriving DecidableEq, Repr

/-- The result of one evaluation. -/
structure DealResult where
  eligible : Bool
  reasons : List String
  tier : Option String
  multiplier : ℚ
  base_bonus_usd : ℚ
  gross_bonus_usd : ℚ
  fx_rate : ℚ
  currency : String
  payouts : List Payout
  checklist : Checklist
  audit : Audit
  deriving DecidableEq, Repr

def PROGRAM_NAME : String := "Global Sales Bonus Accelerator – New Product Launch"

/-- Group the digits of `n` in threes with comma separators, as Python's
`f"{n:,}"` for a non-negative integer. -/
def chunk3 : List Char → List (List Char)
  | [] => []
  | [a] => [[a]]
  | [a, b] => [[a, b]]
  | a :: b :: c :: rest => [a, b, c] :: chunk3 rest

/-- Python's `f"{x:,.0f}"`: round half-even to an integer and insert
thousands separators. -/
def formatMoney0 (q : ℚ) : String :=
  let n := roundHalfEven q
  let digits := (List.intercalate [','] (chunk3 (toString n.natAbs).data.reverse)).reverse
  (if n < 0 then "-" else "") ++ String.mk digits

/-- The average-month factor `30.4375` used by the engine, exactly `487/16`. -/
def avgMonthDays : ℚ := 487 / 16

/-- `check_eligibility(deal, cfg)`: collect all disqualification
reasons; eligible iff none. -/
def check_eligibility (deal : DealInput) (cfg : ProgramConfig) :
    Bool × List String :=
  let r1 : List String :=
    if !deal.is_new_customer then ["Customer is not new."] else []
  let r2 : List String :=
    if !deal.product_type_push then ["Product is not a designated push product."] else []
  let r3 : List String :=
    if deal.annual_order_value < cfg.min_order_usd then
      ["Order value below $" ++ formatMoney0 cfg.min_order_usd ++ " USD minimum."]
    else []
  let r4 : List String :=
    if deal.contract_term_months < cfg.min_term_months then
      ["Contract term below " ++ toString cfg.min_term_months ++ " months."]
    else []
  let window_end :=
    addDaysZ deal.launch_or_announce_date
      (roundHalfEven ((cfg.program_months : ℚ) * avgMonthDays))
  let r5 : List String :=
    if !(dateLe deal.launch_or_announce_date deal.signing_date &&
        dateLe deal.signing_date window_end) then
      ["Signing date outside program window (18 months post launch/announce)."]
    else []
  let reasons := r1 ++ r2 ++ r3 ++ r4 ++ r5
  (reasons.length = 0, reasons)

/-- Whether `order_value_usd` falls in tier `t`'s range:
`order_value_usd >= t.min_value and (t.max_value is None or
order_value_usd <= t.max_value)`. -/
def tierMatches (v : ℚ) (t : TierRule) : Bool :=
  decide (t.min_value ≤ v) &&
    (match t.max_value with
     | none => true
     | some mx => decide (v ≤ mx))

/-- Stable insertion of a tier into a list sorted by `min_value`
(models the stability of Python's `sorted`). -/
def insertByMin (t : TierRule) : List TierRule → List TierRule
  | [] => [t]
  | s :: rest =>
    if t.min_value < s.min_value then t :: s :: rest
    else s :: insertByMin t rest

/-- Stable sort of tiers by `min_value`, as `sorted(tiers, key=lambda x:
x.min_value)`. -/
def sortByMin : List TierRule → List TierRule
  | [] => []
  | t :: rest => insertByMin t (sortByMin rest)

/-- `determine_tier(order_value_usd, tiers)`: first tier whose range
contains the value, else the head of the list sorted by `min_value`.
`sorted([])[0]` raises `IndexError`, modelled as `none`. -/
def determine_tier (v : ℚ) (tiers : List TierRule) : Option TierRule :=
  match tiers.find? (tierMatches v) with
  | some t => some t
  | none => (sortByMin tiers).head?

/-- `get_base_bonus(region, role, cfg)`: two-level dict lookup with 0.0
default. -/
def get_base_bonus (region role : String) (cfg : ProgramConfig) : ℚ :=
  (((cfg.base_bonus_by_region_role.lookup region).getD []).lookup role).getD 0

/-- `get_fx_rate(ccy, signing_date, cfg)`: 1.0 for USD; otherwise the
configured quarterly rate, defaulting to 1.0 when absent. -/
def get_fx_rate (ccy : String) (signing_date : Date) (cfg : ProgramConfig) : ℚ :=
  if ccy.toUpper = "USD" then 1
  else (((cfg.fx_by_quarter.lookup (quarter_key signing_date)).getD []).lookup
    ccy.toUpper).getD 1

/-- `build_payout_schedule(tier, signing_date, gross_bonus_usd)`. -/
def build_payout_schedule (tier : TierRule) (signing_date : Date)
    (gross_bonus_usd : ℚ) : List (Date × ℚ) :=
  tier.payouts.map (fun mf =>
    (end_of_month (addDaysZ signing_date (roundHalfEven ((mf.1 : ℚ) * avgMonthDays))),
     round2 (gross_bonus_usd * mf.2)))

/-- The FX-default warning appended by `compute_deal`. -/
def fxWarning (deal : DealInput) : String :=
  "No FX rate found for " ++ deal.currency ++ " in " ++
    quarter_key deal.signing_date ++ "; using 1.0."

/-- `compute_deal(deal, cfg)`; `now` stands for the wall-clock string
`dt.datetime.utcnow().isoformat() + "Z"`.  `none` models the uncaught
`IndexError` raised by `determine_tier` on an empty tier list. -/
def compute_deal (deal : DealInput) (cfg : ProgramConfig) (now : String) :
    Option DealResult :=
  let er := check_eligibility deal cfg
  match determine_tier deal.annual_order_value cfg.tiers with
  | none => none
  | some tier =>
    let base_bonus := get_base_bonus deal.region deal.role cfg
    let multiplier := if er.1 then tier.multiplier else 0
    let gross_bonus_usd := round2 (base_bonus * multiplier)
    let fx := get_fx_rate deal.currency deal.signing_date cfg
    let payouts : List Payout :=
      if er.1 then
        (build_payout_schedule tier deal.signing_date gross_bonus_usd).map
          (fun p => ⟨p.1, p.2, round2 (p.2 * fx)⟩)
      else []
    let reasons :=
      if fx = 1 ∧ deal.currency.toUpper ≠ "USD" then er.2 ++ [fxWarning deal]
      else er.2
    some
      { eligible := er.1
        reasons := reasons
        tier := if er.1 then some tier.name else none
        multiplier := multiplier
        base_bonus_usd := base_bonus
        gross_bonus_usd := gross_bonus_usd
        fx_rate := fx
        currency := deal.currency.toUpper
        payouts := payouts
        checklist :=
          { sfdc_po_submitted := !(deal.sfdc_po_id.trim = "")
            sales_ops_validated := false
            product_mgmt_validated := false
            bonus_confirmed_within_30_days := false }
        audit :=
          { program := PROGRAM_NAME
            computed_at := now
            input := deal
            config_version := "session"
            tier_rule := tier } }

/-! ### Concrete example data, used to instantiate the theorems -/

/-- The three tier rules of `default_config()`. -/
def exTier1 : TierRule := ⟨"Tier 1", 100000, some (249999999/1000), 1, [(0, 1)]⟩

def exTier2 : TierRule := ⟨"Tier 2", 250000, some (499999999/1000), 3/2, [(0, 1/2), (6, 1/2)]⟩

def exTier3 : TierRule := ⟨"Tier 3", 500000, none, 2, [(0, 1/2), (12, 1/2)]⟩

def exTiers : List TierRule := [exTier1, exTier2, exTier3]

/-- A minimal single-tier rule paying the full bonus at month 0. -/
def exTierU : TierRule := ⟨"T0", 0, none, 1, [(0, 1)]⟩

/-- A minimal configuration: one all-inclusive tier, zero thresholds,
a zero-month window, and an explicit EUR rate of 1.0 for 2025Q3. -/
def exCfgU : ProgramConfig :=
  ⟨0, 0, 0, 30, [("NA", [("AE", 100)])], [], [("2025Q3", [("EUR", 1)])], [exTierU]⟩

/-- `exCfgU` with an empty tier list. -/
def exCfgEmpty : ProgramConfig := { exCfgU with tiers := [] }

/-- A configuration whose only tier pays a tenth of the bonus, with an
explicit EUR rate of 10. -/
def exCfgC6 : ProgramConfig :=
  ⟨0, 0, 0, 30, [("NA", [("AE", 333/100)])], [], [("2025Q3", [("EUR", 10)])],
   [⟨"T0", 0, none, 1, [(0, 1/10)]⟩]⟩

/-- A configuration with a negative payout fraction and a non-positive
explicit FX rate. -/
def exCfgBad : ProgramConfig :=
  ⟨0, 0, 0, 30, [("NA", [("AE", 100)])], [], [("2025Q3", [("EUR", -2)])],
   [⟨"B", 0, none, 1, [(0, -1)]⟩]⟩

/-- A fully eligible USD deal signed on its launch date. -/
def exDealU : DealInput :=
  ⟨"P", "NA", "AE", "USD", 0, 0, ⟨2025, 7, 1⟩, ⟨2025, 7, 1⟩, true, true, "x"⟩

def exDealEUR : DealInput := { exDealU with currency := "EUR" }

def exDealIne : DealInput := { exDealU with is_new_customer := false }

def exDealLate : DealInput := { exDealU with signing_date := ⟨2025, 6, 30⟩ }

/-- The result of `compute_deal exDealU exCfgU ts`. -/
def exResAt (ts : String) : DealResult :=
  ⟨true, [], some "T0", 1, 100, 100, 1, "USD",
   [⟨⟨2025, 7, 31⟩, 100, 100⟩], ⟨true, false, false, false⟩,
   ⟨PROGRAM_NAME, ts, exDealU, "session", exTierU⟩⟩

/-- The result of `compute_deal exDealEUR exCfgU "T"`. -/
def exResEUR : DealResult :=
  ⟨true, ["No FX rate found for EUR in 2025Q3; using 1.0."], some "T0", 1, 100, 100, 1,
   "EUR", [⟨⟨2025, 7, 31⟩, 100, 100⟩], ⟨true, false, false, false⟩,
   ⟨PROGRAM_NAME, "T", exDealEUR, "session", exTierU⟩⟩

/-- The result of `compute_deal exDealIne exCfgU "T"`. -/
def exResIne : DealResult :=
  ⟨false, ["Customer is not new."], none, 0, 100, 0, 1, "USD", [],
   ⟨true, false, false, false⟩,
   ⟨PROGRAM_NAME, "T", exDealIne, "session", exTierU⟩⟩

/-- The result of `compute_deal exDealEUR exCfgC6 "T"`. -/
def exResC6 : DealResult :=
  ⟨true, [], some "T0", 1, 333/100, 333/100, 10, "EUR",
   [⟨⟨2025, 7, 31⟩, 33/100, 33/10⟩], ⟨true, false, false, false⟩,
   ⟨PROGRAM_NAME, "T", exDealEUR, "session", ⟨"T0", 0, none, 1, [(0, 1/10)]⟩⟩⟩

/-- The result of `compute_deal exDealEUR exCfgBad "T"`. -/
def exResBad : DealResult :=
  ⟨true, [], some "B", 1, 100, 100, -2, "EUR",
   [⟨⟨2025, 7, 31⟩, -100, 200⟩], ⟨true, false, false, false⟩,
   ⟨PROGRAM_NAME, "T", exDealEUR, "session", ⟨"B", 0, none, 1, [(0, -1)]⟩⟩⟩

/-! ### Supporting lemmas -/

/-- Rounding an integer rational is the identity. -/
theorem roundHalfEven_intCast (n : ℤ) : roundHalfEven (n : ℚ) = n := by
  simp [roundHalfEven]

/-- `round2` lands on hundredths, so rounding again changes nothing. -/
theorem round2_round2 (q : ℚ) : round2 (round2 q) = round2 q := by
  unfold round2
  rw [div_mul_cancel₀]
  · rw [roundHalfEven_intCast]
  · norm_num

/-! ### Claim C9 -/

/-- Claim C9: for every calendar date `d` (month in 1..12),
`end_of_month d` returns the last calendar day of `d`'s month, for all
month lengths including February in leap years. -/
theorem c9_end_of_month_last_day (dt : Date) (hm1 : 1 ≤ dt.m) (hm2 : dt.m ≤ 12) :
    end_of_month dt = ⟨dt.y, dt.m, daysInMonth dt.y dt.m⟩ := by
  obtain ⟨y, m, d⟩ := dt
  simp only at hm1 hm2 ⊢
  have hadd : ∀ a : Date, addDays a 4 = nextDay (nextDay (nextDay (nextDay a))) :=
    fun _ => rfl
  have hs1 : ∀ a : Date, subDays a 1 = prevDay a := fun _ => rfl
  have hs2 : ∀ a : Date, subDays a 2 = prevDay (prevDay a) := fun _ => rfl
  have hs3 : ∀ a : Date, subDays a 3 = prevDay (prevDay (prevDay a)) := fun _ => rfl
  have hs4 : ∀ a : Date, subDays a 4 = prevDay (prevDay (prevDay (prevDay a))) :=
    fun _ => rfl
  interval_cases m
  case _ => simp [end_of_month, hadd, hs1, hs2, hs3, hs4, nextDay, prevDay, daysInMonth]
  case _ =>
    cases hl : isLeap y <;>
      simp [end_of_month, hadd, hs1, hs2, hs3, hs4, nextDay, prevDay, daysInMonth, hl]
  all_goals
    simp [end_of_month, hadd, hs1, hs2, hs3, hs4, nextDay, prevDay, daysInMonth]

/-- Witness for C9 at concrete dates: February of a leap year and of a
common year. -/
theorem c9_end_of_month_last_day_witness :
    end_of_month ⟨2024, 2, 10⟩ = ⟨2024, 2, 29⟩ :=
  (c9_end_of_month_last_day ⟨2024, 2, 10⟩ (by decide) (by decide)).trans (by decide)

/-! ### Lemmas about tier selection -/

/-- `List.find?` returns the first element satisfying the predicate. -/
theorem find?_first {α : Type} (p : α → Bool) (l₁ l₂ : List α) (t : α)
    (ht : p t = true) (h : ∀ u ∈ l₁, p u = false) :
    (l₁ ++ t :: l₂).find? p = some t := by
  induction l₁ with
  | nil => simp [List.find?_cons, ht]
  | cons a as ih =>
    have ha := h a (by simp)
    simp [List.find?_cons, ha, ih (fun u hu => h u (by simp [hu]))]

/-- The head of the stable sort by `min_value` is a member attaining the
minimal `min_value`. -/
theorem sortByMin_head_spec (l : List TierRule) (hl : l ≠ []) :
    ∃ t, (sortByMin l).head? = some t ∧ t ∈ l ∧
      ∀ u ∈ l, t.min_value ≤ u.min_value := by
  induction l with
  | nil => simp at hl
  | cons x xs ih =>
    rcases eq_or_ne xs [] with rfl | hxs
    · exact ⟨x, by simp [sortByMin, insertByMin], by simp, by simp⟩
    · obtain ⟨t, ht, htm, hmin⟩ := ih hxs
      obtain ⟨rest, hrest⟩ : ∃ rest, sortByMin xs = t :: rest := by
        cases hs : sortByMin xs with
        | nil => simp [hs] at ht
        | cons a as => simp [hs] at ht; exact ⟨as, by simp [ht]⟩
      by_cases hc : x.min_value < t.min_value
      · refine ⟨x, ?_, by simp, ?_⟩
        · simp [sortByMin, hrest, insertByMin, hc]
        · intro u hu
          rcases List.mem_cons.1 hu with rfl | hu
          · exact le_refl _
          · exact le_of_lt (lt_of_lt_of_le hc (hmin u hu))
      · refine ⟨t, ?_, List.mem_cons_of_mem _ htm, ?_⟩
        · simp [sortByMin, hrest, insertByMin, hc]
        · intro u hu
          rcases List.mem_cons.1 hu with rfl | hu
          · exact le_of_not_lt hc
          · exact hmin u hu

/-- Inserting never produces the empty list. -/
theorem insertByMin_ne_nil (t : TierRule) (l : List TierRule) :
    insertByMin t l ≠ [] := by
  cases l with
  | nil => simp [insertByMin]
  | cons a as =>
    simp only [insertByMin]
    split <;> simp

/-- The stable sort is empty only for the empty list. -/
theorem sortByMin_eq_nil_iff (l : List TierRule) : sortByMin l = [] ↔ l = [] := by
  cases l with
  | nil => simp [sortByMin]
  | cons x xs => simp [sortByMin, insertByMin_ne_nil]

/-- `determine_tier` fails exactly on the empty tier list. -/
theorem determine_tier_eq_none_iff (v : ℚ) (tiers : List TierRule) :
    determine_tier v tiers = none ↔ tiers = [] := by
  constructor
  · intro h
    cases hf : tiers.find? (tierMatches v) with
    | some t => simp [determine_tier, hf] at h
    | none =>
      simp only [determine_tier, hf] at h
      rw [List.head?_eq_none_iff] at h
      exact (sortByMin_eq_nil_iff tiers).1 h
  · rintro rfl
    rfl

/-! ### Lemmas normalizing if-then-else branches -/

theorem ite_flip_le {α : Type} {β : Type} [LinearOrder β] (a b : β) (x y : α) :
    (if a ≤ b then x else y) = if b < a then y else x := by
  by_cases h : a ≤ b
  · rw [if_pos h, if_neg (not_lt.2 h)]
  · rw [if_neg h, if_pos (not_le.1 h)]

theorem ite_flip_bool {α : Type} (b : Bool) (x y : α) :
    (if b = true then x else y) = if (!b) = true then y else x := by
  cases b <;> simp

theorem ite_flip_and {α : Type} (p q : Bool) (x y : α) :
    (if p = true ∧ q = true then x else y) = if (!(p && q)) = true then y else x := by
  cases p <;> cases q <;> simp

/-! ### Decomposition of the eligibility check -/

/-- `check_eligibility` decomposed check by check: each of the five
conditions contributes its own reason independently, and the flag is
the emptiness of the collected reasons. -/
theorem check_eligibility_eq (deal : DealInput) (cfg : ProgramConfig) :
    ((check_eligibility deal cfg).1 = true ↔ (check_eligibility deal cfg).2 = []) ∧
    (check_eligibility deal cfg).2 =
      (if deal.is_new_customer = true then [] else ["Customer is not new."]) ++
      (if deal.product_type_push = true then []
       else ["Product is not a designated push product."]) ++
      (if cfg.min_order_usd ≤ deal.annual_order_value then []
       else ["Order value below $" ++ formatMoney0 cfg.min_order_usd ++ " USD minimum."]) ++
      (if cfg.min_term_months ≤ deal.contract_term_months then []
       else ["Contract term below " ++ toString cfg.min_term_months ++ " months."]) ++
      (if dateLe deal.launch_or_announce_date deal.signing_date = true ∧
          dateLe deal.signing_date
            (addDaysZ deal.launch_or_announce_date
              (roundHalfEven ((cfg.program_months : ℚ) * avgMonthDays))) = true then []
       else ["Signing date outside program window (18 months post launch/announce)."]) := by
  constructor
  · simp [check_eligibility, List.length_eq_zero]
  · conv_rhs =>
      rw [ite_flip_bool deal.is_new_customer, ite_flip_bool deal.product_type_push,
        ite_flip_le, ite_flip_le, ite_flip_and]
    simp [check_eligibility, List.append_assoc]

/-! ### Claim C3 -/

/-- Claim C3: the eligibility check evaluates all five conditions
independently (no short-circuiting), collecting one reason per
violation — new-customer flag, push flag, order value at least the
minimum, contract term at least the minimum, and the signing date
within `[launchDate, launchDate + round(programMonths * 30.4375) days]`
reported as a single combined reason — and the deal is eligible iff
zero reasons were collected. -/
theorem c3_eligibility_independent (deal : DealInput) (cfg : ProgramConfig) :
    ((check_eligibility deal cfg).1 = true ↔ (check_eligibility deal cfg).2 = []) ∧
    (check_eligibility deal cfg).2 =
      (if deal.is_new_customer = true then [] else ["Customer is not new."]) ++
      (if deal.product_type_push = true then []
       else ["Product is not a designated push product."]) ++
      (if cfg.min_order_usd ≤ deal.annual_order_value then []
       else ["Order value below $" ++ formatMoney0 cfg.min_order_usd ++ " USD minimum."]) ++
      (if cfg.min_term_months ≤ deal.contract_term_months then []
       else ["Contract term below " ++ toString cfg.min_term_months ++ " months."]) ++
      (if dateLe deal.launch_or_announce_date deal.signing_date = true ∧
          dateLe deal.signing_date
            (addDaysZ deal.launch_or_announce_date
              (roundHalfEven ((cfg.program_months : ℚ) * avgMonthDays))) = true then []
       else ["Signing date outside program window (18 months post launch/announce)."]) :=
  check_eligibility_eq deal cfg

/-! ### Claim C5 -/

/-- Claim C5: for every order value and non-empty tier list, tier
selection returns the first tier in caller-given order whose range
contains the value; if no tier matches it returns a tier with the
smallest `min_value` among all tiers, so a tier is always returned;
and the orchestrator records this tier in the audit regardless of the
eligibility outcome. -/
theorem c5_tier_selection (v : ℚ) (tiers : List TierRule) (hne : tiers ≠ []) :
    (∃ t, determine_tier v tiers = some t) ∧
    (∀ l₁ t l₂, tiers = l₁ ++ t :: l₂ → tierMatches v t = true →
      (∀ u ∈ l₁, tierMatches v u = false) → determine_tier v tiers = some t) ∧
    ((∀ u ∈ tiers, tierMatches v u = false) →
      ∃ t, determine_tier v tiers = some t ∧ t ∈ tiers ∧
        ∀ u ∈ tiers, t.min_value ≤ u.min_value) ∧
    (∀ deal cfg now r, compute_deal deal cfg now = some r →
      determine_tier deal.annual_order_value cfg.tiers = some r.audit.tier_rule) := by
  have h1 : ∃ t, determine_tier v tiers = some t := by
    cases hf : tiers.find? (tierMatches v) with
    | some t => exact ⟨t, by simp [determine_tier, hf]⟩
    | none =>
      obtain ⟨t, ht, -, -⟩ := sortByMin_head_spec tiers hne
      exact ⟨t, by simp [determine_tier, hf, ht]⟩
  refine ⟨h1, ?_, ?_, ?_⟩
  · rintro l₁ t l₂ rfl ht hall
    simp [determine_tier, find?_first _ l₁ l₂ t ht hall]
  · intro hall
    have hf : tiers.find? (tierMatches v) = none :=
      List.find?_eq_none.2 (fun u hu => by simp [hall u hu])
    obtain ⟨t, ht, htm, hmin⟩ := sortByMin_head_spec tiers hne
    exact ⟨t, by simp [determine_tier, hf, ht], htm, hmin⟩
  · intro deal cfg now r hr
    cases hd : determine_tier deal.annual_order_value cfg.tiers with
    | none => simp [compute_deal, hd] at hr
    | some tier =>
      simp only [compute_deal, hd] at hr
      cases hr
      rfl

/-- Witness for C5: on the default tier table, an order value of
250,000 selects Tier 2 first-match (Tier 1's cap excludes it). -/
theorem c5_tier_selection_witness :
    determine_tier 250000 exTiers = some exTier2 :=
  (c5_tier_selection 250000 exTiers (by decide)).2.1 [exTier1] exTier2 [exTier3] rfl
    (by with_unfolding_all decide) (by with_unfolding_all decide)

/-! ### Claim C10 -/

/-- Claim C10: the disqualification reason emitted when the signing
date falls outside the program window is the fixed string "Signing
date outside program window (18 months post launch/announce)." for
every configuration — it mentions "18 months" regardless of the
configured `program_months`, even though the window bound itself is
computed from `program_months`. -/
theorem c10_window_reason_fixed_string (deal : DealInput) (cfg : ProgramConfig)
    (h : ¬(dateLe deal.launch_or_announce_date deal.signing_date = true ∧
        dateLe deal.signing_date
          (addDaysZ deal.launch_or_announce_date
            (roundHalfEven ((cfg.program_months : ℚ) * avgMonthDays))) = true)) :
    "Signing date outside program window (18 months post launch/announce)." ∈
      (check_eligibility deal cfg).2 ∧
    ((check_eligibility deal cfg).2).getLast? =
      some "Signing date outside program window (18 months post launch/announce)." := by
  have hd := (check_eligibility_eq deal cfg).2
  rw [hd, if_neg h]
  constructor
  · simp
  · simp [List.getLast?_append]

/-- Witness for C10: a deal signed the day before launch, under a
configuration whose window length is 0 months, still gets the fixed
"18 months" wording. -/
theorem c10_window_reason_fixed_string_witness :
    ((check_eligibility exDealLate exCfgU).2).getLast? =
      some "Signing date outside program window (18 months post launch/announce)." :=
  (c10_window_reason_fixed_string exDealLate exCfgU (by decide)).2

/-! ### Field-wise evaluation helper -/

set_option maxRecDepth 8000

/-- Assemble a whole-result equality from per-field evaluations. -/
theorem eq_some_of_fields (x : Option DealResult) (r : DealResult)
    (he : x.map DealResult.eligible = some r.eligible)
    (hre : x.map DealResult.reasons = some r.reasons)
    (ht : x.map DealResult.tier = some r.tier)
    (hm : x.map DealResult.multiplier = some r.multiplier)
    (hb : x.map DealResult.base_bonus_usd = some r.base_bonus_usd)
    (hg : x.map DealResult.gross_bonus_usd = some r.gross_bonus_usd)
    (hf : x.map DealResult.fx_rate = some r.fx_rate)
    (hc : x.map DealResult.currency = some r.currency)
    (hp : x.map DealResult.payouts = some r.payouts)
    (hk : x.map DealResult.checklist = some r.checklist)
    (hap : x.map (fun s => s.audit.program) = some r.audit.program)
    (hat : x.map (fun s => s.audit.computed_at) = some r.audit.computed_at)
    (hai : x.map (fun s => s.audit.input) = some r.audit.input)
    (hac : x.map (fun s => s.audit.config_version) = some r.audit.config_version)
    (har : x.map (fun s => s.audit.tier_rule) = some r.audit.tier_rule) :
    x = some r := by
  cases x with
  | none => cases he
  | some s =>
    simp only [Option.map_some', Option.some.injEq] at *
    obtain ⟨e₁, r₁, t₁, m₁, b₁, g₁, f₁, c₁, p₁, k₁, a₁⟩ := s
    obtain ⟨ap₁, at₁, ai₁, ac₁, ar₁⟩ := a₁
    obtain ⟨e₂, r₂, t₂, m₂, b₂, g₂, f₂, c₂, p₂, k₂, a₂⟩ := r
    obtain ⟨ap₂, at₂, ai₂, ac₂, ar₂⟩ := a₂
    simp_all

/-- Changing only the timestamp argument changes only the audit
timestamp of the result. -/
theorem compute_deal_timestamp (deal : DealInput) (cfg : ProgramConfig)
    (t₁ t₂ : String) (r : DealResult)
    (h : compute_deal deal cfg t₁ = some r) :
    compute_deal deal cfg t₂ =
      some { r with audit := { r.audit with computed_at := t₂ } } := by
  cases hd : determine_tier deal.annual_order_value cfg.tiers with
  | none => simp [compute_deal, hd] at h
  | some tier =>
    simp only [compute_deal, hd] at h ⊢
    rw [Option.some.injEq] at h
    rw [← h]

/-- `compute_deal` on the minimal eligible USD example, at any
timestamp. -/
theorem compute_exU (ts : String) :
    compute_deal exDealU exCfgU ts = some (exResAt ts) := by
  have hT : compute_deal exDealU exCfgU "T" = some (exResAt "T") :=
    eq_some_of_fields _ _ (by with_unfolding_all decide) (by with_unfolding_all decide)
      (by with_unfolding_all decide) (by with_unfolding_all decide)
      (by with_unfolding_all decide) (by with_unfolding_all decide)
      (by with_unfolding_all decide) (by with_unfolding_all decide)
      (by with_unfolding_all decide) (by with_unfolding_all decide)
      (by decide) (by decide) (by with_unfolding_all decide) (by decide)
      (by with_unfolding_all decide)
  exact (compute_deal_timestamp exDealU exCfgU "T" ts _ hT).trans rfl

/-! ### Claim C1 -/

/-- Claim C1, counterexample: the configuration explicitly supplies the
rate 1.0 for EUR in 2025Q3, yet the warning "No FX rate found for EUR
in 2025Q3; using 1.0." is appended — contradicting the claim that no
warning is appended when a rate (even 1.0) is explicitly supplied. -/
theorem c1_fx_warning_counterexample :
    (((exCfgU.fx_by_quarter.lookup (quarter_key exDealEUR.signing_date)).getD []).lookup
      exDealEUR.currency.toUpper) = some 1 ∧
    compute_deal exDealEUR exCfgU "T" = some exResEUR ∧
    fxWarning exDealEUR ∈ exResEUR.reasons :=
  ⟨by with_unfolding_all decide,
   eq_some_of_fields _ _ (by with_unfolding_all decide) (by with_unfolding_all decide)
     (by with_unfolding_all decide) (by with_unfolding_all decide)
     (by with_unfolding_all decide) (by with_unfolding_all decide)
     (by with_unfolding_all decide) (by with_unfolding_all decide)
     (by with_unfolding_all decide) (by with_unfolding_all decide)
     (by decide) (by decide) (by with_unfolding_all decide) (by decide)
     (by with_unfolding_all decide),
   by decide⟩

/-- Claim C1 as amended: the warning `fxWarning` is appended to the
eligibility reasons if and only if the applied FX rate equals 1.0 and
the uppercased currency is not "USD" — so it is also appended when the
configuration explicitly supplies a rate equal to 1.0 — and appending
it never changes the eligibility flag, which equals the pure
eligibility check's verdict. -/
theorem c1_fx_warning_amended (deal : DealInput) (cfg : ProgramConfig)
    (now : String) (r : DealResult) (hr : compute_deal deal cfg now = some r) :
    r.eligible = (check_eligibility deal cfg).1 ∧
    r.reasons =
      (if get_fx_rate deal.currency deal.signing_date cfg = 1 ∧
          deal.currency.toUpper ≠ "USD"
       then (check_eligibility deal cfg).2 ++ [fxWarning deal]
       else (check_eligibility deal cfg).2) := by
  cases hd : determine_tier deal.annual_order_value cfg.tiers with
  | none => simp [compute_deal, hd] at hr
  | some tier =>
    simp only [compute_deal, hd] at hr
    cases hr
    exact ⟨rfl, rfl⟩

/-- Witness for the amended C1 on the explicit-EUR-rate-of-1 example. -/
theorem c1_fx_warning_amended_witness :
    compute_deal exDealEUR exCfgU "T" = some exResEUR ∧
    (exResEUR.eligible = (check_eligibility exDealEUR exCfgU).1 ∧
     exResEUR.reasons =
       (if get_fx_rate exDealEUR.currency exDealEUR.signing_date exCfgU = 1 ∧
           exDealEUR.currency.toUpper ≠ "USD"
        then (check_eligibility exDealEUR exCfgU).2 ++ [fxWarning exDealEUR]
        else (check_eligibility exDealEUR exCfgU).2)) :=
  have h : compute_deal exDealEUR exCfgU "T" = some exResEUR :=
    eq_some_of_fields _ _ (by with_unfolding_all decide) (by with_unfolding_all decide)
      (by with_unfolding_all decide) (by with_unfolding_all decide)
      (by with_unfolding_all decide) (by with_unfolding_all decide)
      (by with_unfolding_all decide) (by with_unfolding_all decide)
      (by with_unfolding_all decide) (by with_unfolding_all decide)
      (by decide) (by decide) (by with_unfolding_all decide) (by decide)
      (by with_unfolding_all decide)
  ⟨h, c1_fx_warning_amended exDealEUR exCfgU "T" exResEUR h⟩

/-! ### Claim C2 -/

/-- Claim C2, counterexample: a configuration with a negative payout
fraction and a non-positive explicit FX rate does not make `evaluate`
raise — it returns a complete `DealResult` computed from those values
(USD payout −100, local payout 200). -/
theorem c2_config_error_counterexample :
    (∃ t ∈ exCfgBad.tiers, ∃ mf ∈ t.payouts, mf.2 < 0) ∧
    (∃ qm ∈ exCfgBad.fx_by_quarter, ∃ cr ∈ qm.2, cr.2 ≤ 0) ∧
    compute_deal exDealEUR exCfgBad "T" = some exResBad :=
  ⟨by with_unfolding_all decide, by with_unfolding_all decide,
   eq_some_of_fields _ _ (by with_unfolding_all decide) (by with_unfolding_all decide)
     (by with_unfolding_all decide) (by with_unfolding_all decide)
     (by with_unfolding_all decide) (by with_unfolding_all decide)
     (by with_unfolding_all decide) (by with_unfolding_all decide)
     (by with_unfolding_all decide) (by with_unfolding_all decide)
     (by decide) (by decide) (by with_unfolding_all decide) (by decide)
     (by with_unfolding_all decide)⟩

/-- Claim C2 as amended: the engine performs no configuration
validation and raises no `ConfigurationError`: evaluation fails (with
an uncaught `IndexError`, modelled as `none`) exactly when the tier
list is empty, and for every other configuration — including negative
payout fractions and non-positive explicit FX rates — it returns a
complete `DealResult`. -/
theorem c2_config_error_amended (deal : DealInput) (cfg : ProgramConfig)
    (now : String) :
    compute_deal deal cfg now = none ↔ cfg.tiers = [] := by
  cases hd : determine_tier deal.annual_order_value cfg.tiers with
  | none =>
    have ht := (determine_tier_eq_none_iff _ _).1 hd
    simp only [compute_deal, hd]
    simp [ht]
  | some tier =>
    have : cfg.tiers ≠ [] := by
      intro h
      rw [(determine_tier_eq_none_iff deal.annual_order_value cfg.tiers).2 h] at hd
      cases hd
    simp [compute_deal, hd, this]

/-- Witness for the amended C2: the empty-tier configuration makes
evaluation fail. -/
theorem c2_config_error_amended_witness :
    compute_deal exDealU exCfgEmpty "T" = none :=
  (c2_config_error_amended exDealU exCfgEmpty "T").2 rfl

/-! ### Claim C4 -/

/-- Claim C4: every deal failing at least one eligibility check gets
multiplier 0, an empty payout list and no tier name, while the audit
still snapshots the tier rule that `determine_tier` selects for the
order value. -/
theorem c4_ineligible_zeroed (deal : DealInput) (cfg : ProgramConfig)
    (now : String) (r : DealResult) (hr : compute_deal deal cfg now = some r)
    (he : r.eligible = false) :
    r.multiplier = 0 ∧ r.payouts = [] ∧ r.tier = none ∧
    determine_tier deal.annual_order_value cfg.tiers = some r.audit.tier_rule := by
  cases hd : determine_tier deal.annual_order_value cfg.tiers with
  | none => simp [compute_deal, hd] at hr
  | some tier =>
    simp only [compute_deal, hd] at hr
    cases hr
    simp only at he
    simp [he]

/-- Witness for C4 on a returning-customer (hence ineligible) deal. -/
theorem c4_ineligible_zeroed_witness :
    compute_deal exDealIne exCfgU "T" = some exResIne ∧
    exResIne.eligible = false ∧
    (exResIne.multiplier = 0 ∧ exResIne.payouts = [] ∧ exResIne.tier = none ∧
     determine_tier exDealIne.annual_order_value exCfgU.tiers =
       some exResIne.audit.tier_rule) :=
  have h : compute_deal exDealIne exCfgU "T" = some exResIne :=
    eq_some_of_fields _ _ (by with_unfolding_all decide) (by with_unfolding_all decide)
      (by with_unfolding_all decide) (by with_unfolding_all decide)
      (by with_unfolding_all decide) (by with_unfolding_all decide)
      (by with_unfolding_all decide) (by with_unfolding_all decide)
      (by with_unfolding_all decide) (by with_unfolding_all decide)
      (by decide) (by decide) (by with_unfolding_all decide) (by decide)
      (by with_unfolding_all decide)
  ⟨h, by decide, c4_ineligible_zeroed exDealIne exCfgU "T" exResIne h (by decide)⟩

/-! ### Claim C6 -/

/-- Claim C6, counterexample: with gross bonus 3.33, fraction 1/10 and
FX rate 10, the engine produces local amount 3.3 (= round2(round2(3.33
· 1/10) · 10)), while rounding the raw product would give round2(3.33
· 1/10 · 10) = 3.33 — so the local amount is derived from the
already-rounded USD figure, not independently from its own raw
product. -/
theorem c6_local_rounding_counterexample :
    compute_deal exDealEUR exCfgC6 "T" = some exResC6 ∧
    exResC6.payouts.map Payout.amount_local = [33/10] ∧
    round2 (exResC6.gross_bonus_usd * (1/10) * exResC6.fx_rate) = 333/100 ∧
    ((33 : ℚ)/10) ≠ 333/100 :=
  ⟨eq_some_of_fields _ _ (by with_unfolding_all decide) (by with_unfolding_all decide)
     (by with_unfolding_all decide) (by with_unfolding_all decide)
     (by with_unfolding_all decide) (by with_unfolding_all decide)
     (by with_unfolding_all decide) (by with_unfolding_all decide)
     (by with_unfolding_all decide) (by with_unfolding_all decide)
     (by decide) (by decide) (by with_unfolding_all decide) (by decide)
     (by with_unfolding_all decide),
   by with_unfolding_all decide, by with_unfolding_all decide,
   by with_unfolding_all decide⟩

/-- Claim C6 as amended: for every eligible deal, each payout's USD
amount is round2(grossBonusUsd · fraction), and its local amount is
round2(amountUsd · fxRate), i.e. rounded from the already-rounded USD
figure. -/
theorem c6_payout_rounding_amended (deal : DealInput) (cfg : ProgramConfig)
    (now : String) (r : DealResult) (hr : compute_deal deal cfg now = some r)
    (he : r.eligible = true) :
    r.payouts = r.audit.tier_rule.payouts.map (fun mf =>
      ⟨end_of_month (addDaysZ deal.signing_date
          (roundHalfEven ((mf.1 : ℚ) * avgMonthDays))),
       round2 (r.gross_bonus_usd * mf.2),
       round2 (round2 (r.gross_bonus_usd * mf.2) * r.fx_rate)⟩) := by
  cases hd : determine_tier deal.annual_order_value cfg.tiers with
  | none => simp [compute_deal, hd] at hr
  | some tier =>
    simp only [compute_deal, hd] at hr
    cases hr
    simp only at he
    simp [he, build_payout_schedule, List.map_map, Function.comp]

/-- Witness for the amended C6 on the fraction-1/10, FX-10 example. -/
theorem c6_payout_rounding_amended_witness :
    compute_deal exDealEUR exCfgC6 "T" = some exResC6 ∧
    exResC6.eligible = true ∧
    exResC6.payouts = exResC6.audit.tier_rule.payouts.map (fun mf =>
      ⟨end_of_month (addDaysZ exDealEUR.signing_date
          (roundHalfEven ((mf.1 : ℚ) * avgMonthDays))),
       round2 (exResC6.gross_bonus_usd * mf.2),
       round2 (round2 (exResC6.gross_bonus_usd * mf.2) * exResC6.fx_rate)⟩) :=
  have h : compute_deal exDealEUR exCfgC6 "T" = some exResC6 :=
    eq_some_of_fields _ _ (by with_unfolding_all decide) (by with_unfolding_all decide)
      (by with_unfolding_all decide) (by with_unfolding_all decide)
      (by with_unfolding_all decide) (by with_unfolding_all decide)
      (by with_unfolding_all decide) (by with_unfolding_all decide)
      (by with_unfolding_all decide) (by with_unfolding_all decide)
      (by decide) (by decide) (by with_unfolding_all decide) (by decide)
      (by with_unfolding_all decide)
  ⟨h, by decide, c6_payout_rounding_amended exDealEUR exCfgC6 "T" exResC6 h (by decide)⟩

/-! ### Claim C7 -/

/-- Claim C7: two calls to the evaluator with identical, unmutated
inputs and different wall-clock timestamps produce results identical
in every field except the audit record's computation timestamp, which
is each call's own timestamp. -/
theorem c7_idempotent_modulo_timestamp (deal : DealInput) (cfg : ProgramConfig)
    (t₁ t₂ : String) (r₁ r₂ : DealResult)
    (h₁ : compute_deal deal cfg t₁ = some r₁)
    (h₂ : compute_deal deal cfg t₂ = some r₂) :
    r₁ = { r₂ with audit := { r₂.audit with computed_at := r₁.audit.computed_at } } ∧
    r₁.audit.computed_at = t₁ ∧ r₂.audit.computed_at = t₂ := by
  cases hd : determine_tier deal.annual_order_value cfg.tiers with
  | none => simp [compute_deal, hd] at h₁
  | some tier =>
    simp only [compute_deal, hd] at h₁ h₂
    cases h₁
    cases h₂
    exact ⟨rfl, rfl, rfl⟩

/-- Witness for C7 with timestamps "T1" and "T2". -/
theorem c7_idempotent_modulo_timestamp_witness :
    compute_deal exDealU exCfgU "T1" = some (exResAt "T1") ∧
    compute_deal exDealU exCfgU "T2" = some (exResAt "T2") ∧
    (exResAt "T1" =
       { exResAt "T2" with audit :=
           { (exResAt "T2").audit with computed_at := (exResAt "T1").audit.computed_at } } ∧
     (exResAt "T1").audit.computed_at = "T1" ∧
     (exResAt "T2").audit.computed_at = "T2") :=
  ⟨compute_exU "T1", compute_exU "T2",
   c7_idempotent_modulo_timestamp exDealU exCfgU "T1" "T2" (exResAt "T1") (exResAt "T2")
     (compute_exU "T1") (compute_exU "T2")⟩

/-! ### Claim C8 -/

/-- Claim C8: for every deal whose currency code uppercases to "USD",
the applied FX rate is 1.0, no FX-default warning is appended (the
reasons are exactly the eligibility reasons), and every payout's local
amount equals its USD amount. -/
theorem c8_usd_parity (deal : DealInput) (cfg : ProgramConfig) (now : String)
    (r : DealResult) (hc : deal.currency.toUpper = "USD")
    (hr : compute_deal deal cfg now = some r) :
    r.fx_rate = 1 ∧ r.reasons = (check_eligibility deal cfg).2 ∧
    ∀ p ∈ r.payouts, p.amount_local = p.amount_usd := by
  have hfx : get_fx_rate deal.currency deal.signing_date cfg = 1 := by
    simp [get_fx_rate, hc]
  cases hd : determine_tier deal.annual_order_value cfg.tiers with
  | none => simp [compute_deal, hd] at hr
  | some tier =>
    simp only [compute_deal, hd] at hr
    cases hr
    refine ⟨hfx, by simp [hc], ?_⟩
    intro p hp
    simp only at hp
    by_cases he : (check_eligibility deal cfg).1
    · rw [if_pos he] at hp
      obtain ⟨q, hq, rfl⟩ := List.mem_map.1 hp
      obtain ⟨mf, hmf, rfl⟩ := List.mem_map.1 hq
      simp only [build_payout_schedule]
      rw [hfx, mul_one, round2_round2]
    · rw [if_neg he] at hp
      cases hp

/-- Witness for C8 on the minimal eligible USD deal. -/
theorem c8_usd_parity_witness :
    exDealU.currency.toUpper = "USD" ∧
    compute_deal exDealU exCfgU "T" = some (exResAt "T") ∧
    ((exResAt "T").fx_rate = 1 ∧
     (exResAt "T").reasons = (check_eligibility exDealU exCfgU).2 ∧
     ∀ p ∈ (exResAt "T").payouts, p.amount_local = p.amount_usd) :=
  ⟨by with_unfolding_all decide, compute_exU "T",
   c8_usd_parity exDealU exCfgU "T" (exResAt "T") (by with_unfolding_all decide)
     (compute_exU "T")⟩

end BonusAccelerator
